import Mathlib

/-!
Shallow embedding of the token and WebAuthn subsystems of the api-helper
repository, with theorems checking the natural-language specification
against the code. External crates (OpenSSL, serde_json, reqwest, the
challenge and public-key stores) are modelled as oracle fields of
environment structures; everything implemented in the repository itself
(string splitting, base64url decoding, field checks, control flow) is
embedded directly.

Timestamps are modelled as integer milliseconds since the epoch.
Byte strings are lists of naturals.
-/

/-- Value of a single base64url alphabet character, as in the base64ct crate. -/
def b64Val (c : Char) : Option Nat :=
  if 'A' ≤ c ∧ c ≤ 'Z' then some (c.toNat - 65)
  else if 'a' ≤ c ∧ c ≤ 'z' then some (c.toNat - 97 + 26)
  else if '0' ≤ c ∧ c ≤ '9' then some (c.toNat - 48 + 52)
  else if c = '-' then some 62
  else if c = '_' then some 63
  else none

/-- Unpadded base64url decoding of a character list to bytes, strict about
trailing bits, as in Base64UrlUnpadded::decode_vec of the base64ct crate. -/
def b64DecodeChars : List Char → Option (List Nat)
  | [] => some []
  | c1 :: c2 :: c3 :: c4 :: rest => do
      let v1 ← b64Val c1
      let v2 ← b64Val c2
      let v3 ← b64Val c3
      let v4 ← b64Val c4
      let tail ← b64DecodeChars rest
      pure ((v1 * 4 + v2 / 16) :: ((v2 % 16) * 16 + v3 / 4) :: ((v3 % 4) * 64 + v4) :: tail)
  | [c1, c2] => do
      let v1 ← b64Val c1
      let v2 ← b64Val c2
      if v2 % 16 = 0 then pure [v1 * 4 + v2 / 16] else none
  | [c1, c2, c3] => do
      let v1 ← b64Val c1
      let v2 ← b64Val c2
      let v3 ← b64Val c3
      if v3 % 4 = 0 then pure [v1 * 4 + v2 / 16, (v2 % 16) * 16 + v3 / 4] else none
  | [_] => none

/-- Split a character list at the first dot, as str::split_once in the source. -/
def splitOnceDot : List Char → Option (List Char × List Char)
  | [] => none
  | c :: rest =>
    if c = '.' then some ([], rest)
    else
      match splitOnceDot rest with
      | some (a, b) => some (c :: a, b)
      | none => none

/-- Split a character list at the last dot, as str::rsplit_once in the source. -/
def rsplitOnceDot (s : List Char) : Option (List Char × List Char) :=
  match splitOnceDot s.reverse with
  | some (a, b) => some (b.reverse, a.reverse)
  | none => none

/-- Interpret up to four bytes as a little-endian u32, as u32::from_le_bytes. -/
def fromLeBytes (l : List Nat) : Nat :=
  l.foldr (fun b acc => b + 256 * acc) 0

/-- Interpret bytes as a big-endian unsigned integer, as u32::from_be_bytes. -/
def fromBeBytes (l : List Nat) : Nat :=
  l.foldl (fun acc b => acc * 256 + b) 0

namespace token

/-- The algorithms supported by the token module of the source: only ES256
(src/token/algorithm.rs). -/
inductive Algorithm
  | ES256
deriving DecidableEq, Repr

/-- The derived serde deserializer of Algorithm accepts exactly the variant
name ES256 as a JSON string; every other string fails deserialization. -/
def Algorithm.fromJsonString : String → Option Algorithm
  | "ES256" => some .ES256
  | _ => none

/-- The curves supported by the source: only P-256 (src/token/json_web_key/mod.rs). -/
inductive Curve
  | P256
deriving DecidableEq, Repr

/-- The parameters that make up the key (src/token/json_web_key/mod.rs). -/
inductive JsonWebKeyParameters
  | EC (crv : Curve) (x : String) (y : String)
deriving DecidableEq, Repr

/-- A JSON web key (src/token/json_web_key/mod.rs). -/
structure JsonWebKey where
  kid : String
  alg : Algorithm
  usage : String
  parameters : JsonWebKeyParameters
deriving DecidableEq, Repr

/-- The JWT header (src/token/json_web_token.rs). -/
structure Header where
  alg : Algorithm
  typ : String
  kid : String
deriving DecidableEq, Repr

/-- The issuer-style JWT claims (src/token/json_web_token.rs); times are
integer milliseconds since the epoch. -/
structure Claims where
  exp : Int
  iss : String
  iat : Int
  nbf : Int
  sub : String
  aud : String
deriving DecidableEq, Repr

/-- A decoded JSON web token (src/token/json_web_token.rs). -/
structure JsonWebToken where
  header : Header
  claims : Claims
deriving DecidableEq, Repr

/-- Error variants for decoding claims and headers (src/token/json_web_token.rs). -/
inductive DecodeError
  | JsonDeserialize
  | Base64Decode
deriving DecidableEq, Repr

/-- The raw JSON fields of a header as produced by the external serde_json
front end, before the source-derived field deserializers run. -/
structure RawHeader where
  alg : String
  typ : String
  kid : String
deriving DecidableEq, Repr

/-- The raw JSON fields of issuer-style claims as produced by the external
serde_json front end. -/
structure RawClaims where
  exp : Int
  iss : String
  iat : Int
  nbf : Int
  sub : String
  aud : String
deriving DecidableEq, Repr

/-- Oracle for the external serde_json crate: maps decoded JSON bytes to the
raw field records, or none when JSON parsing fails. -/
structure SerdeEnv where
  parseHeaderJson : List Nat → Option RawHeader
  parseClaimsJson : List Nat → Option RawClaims

/-- Header::decode (src/token/json_web_token.rs): base64url-decode the
segment, parse JSON, then run the derived field deserializers; the alg field
parses through the Algorithm deserializer, which accepts only ES256. -/
def Header.decode (serde : SerdeEnv) (value : List Char) : Except DecodeError Header :=
  match b64DecodeChars value with
  | none => .error .Base64Decode
  | some bytes =>
    match serde.parseHeaderJson bytes with
    | none => .error .JsonDeserialize
    | some raw =>
      match Algorithm.fromJsonString raw.alg with
      | none => .error .JsonDeserialize
      | some alg => .ok { alg := alg, typ := raw.typ, kid := raw.kid }

/-- Claims::decode (src/token/json_web_token.rs). -/
def Claims.decode (serde : SerdeEnv) (value : List Char) : Except DecodeError Claims :=
  match b64DecodeChars value with
  | none => .error .Base64Decode
  | some bytes =>
    match serde.parseClaimsJson bytes with
    | none => .error .JsonDeserialize
    | some raw =>
      .ok { exp := raw.exp, iss := raw.iss, iat := raw.iat, nbf := raw.nbf,
            sub := raw.sub, aud := raw.aud }

/-- The result of validating the claims (src/token/json_web_token.rs). -/
inductive ClaimsValidationResult
  | Valid
  | Expired
  | Premature
  | Untrusted
  | WrongAudience
deriving DecidableEq, Repr

/-- Claims::is_valid (src/token/json_web_token.rs). The source reads the
wall clock with Timestamp::now; here now is an explicit parameter. -/
def Claims.is_valid (c : Claims) (trusted_issuers : List String) (audience : String)
    (now : Int) : ClaimsValidationResult :=
  if c.exp < now then .Expired
  else if c.nbf > now then .Premature
  else if ¬ (c.iss ∈ trusted_issuers) then .Untrusted
  else if c.aud ≠ audience then .WrongAudience
  else .Valid

/-- Error variants for verifying the JWT
(src/token/json_web_key/verifying.rs). The type has exactly these five
variants; in particular there is no algorithm-mismatch variant. -/
inductive VerifyError
  | VerifierOperation (operation : String)
  | DecodeHeader (source : DecodeError)
  | DecodeClaims (source : DecodeError)
  | DecodeSignature
  | InvalidFormat
deriving DecidableEq, Repr

/-- Oracle for the external OpenSSL crate used by verification: creation of
the verifier may fail, and verify_oneshot may fail (none) or report whether
the signature is valid over the contents. -/
structure CryptoEnv where
  newVerifierOk : Bool
  verifyOneshot : List Nat → List Char → Option Bool

/-- A JSON web key used to verify a signed token
(src/token/json_web_key/verifying.rs); the OpenSSL public key handle is
carried by the crypto oracle. -/
structure VerifyingJsonWebKey where
  jwk : JsonWebKey
  retrieved : Int
deriving DecidableEq, Repr

/-- VerifyingJsonWebKey::verify (src/token/json_web_key/verifying.rs):
build an ES256 verifier from the key algorithm, split the compact JWS at the
last dot, base64url-decode the signature, check the signature over the
contents, and only then decode the header and claims. No comparison between
the decoded header alg and the key alg is performed. -/
def VerifyingJsonWebKey.verify (env : CryptoEnv) (serde : SerdeEnv)
    (self : VerifyingJsonWebKey) (token : List Char) :
    Except VerifyError (Option JsonWebToken) :=
  match self.jwk.alg with
  | .ES256 =>
    if ¬ env.newVerifierOk then .error (.VerifierOperation "create")
    else
      match rsplitOnceDot token with
      | none => .error .InvalidFormat
      | some (contents, signature) =>
        match b64DecodeChars signature with
        | none => .error .DecodeSignature
        | some signature_bytes =>
          match env.verifyOneshot signature_bytes contents with
          | none => .error (.VerifierOperation "verify")
          | some false => .ok none
          | some true =>
            match splitOnceDot contents with
            | none => .error .InvalidFormat
            | some (header, claims) =>
              match Header.decode serde header with
              | .error e => .error (.DecodeHeader e)
              | .ok h =>
                match Claims.decode serde claims with
                | .error e => .error (.DecodeClaims e)
                | .ok c => .ok (some { header := h, claims := c })

end token

namespace extractor

/-- Modelled from the spec: the typed-token claims used by the extractor
(src/token/extractor.rs calls token.claims.is_expired and token.claims.tid,
but the typed-token Claims type itself is not under src); per section 3 the
claims carry tid, exp, iat, sub and a type tag, and per section 4.7 the
time policy additionally reads nbf. Times are integer milliseconds. -/
structure TypedClaims where
  tid : String
  exp : Int
  iat : Int
  nbf : Int
  sub : String
deriving DecidableEq, Repr

/-- Modelled from the spec: the header of the token handled by the extractor;
the extractor reads only the kid field. -/
structure TypedHeader where
  alg : String
  typ : String
  kid : String
deriving DecidableEq, Repr

/-- Modelled from the spec: the decoded token the extractor exposes. -/
structure TypedToken where
  header : TypedHeader
  claims : TypedClaims
deriving DecidableEq, Repr

/-- Milliseconds in the given number of minutes. -/
def minutes (n : Int) : Int := n * 60000

/-- Modelled from the spec: Claims::is_expired, the claims time policy of
section 4.7 applied by the extractor; its body is absent from src. Reject
when nbf is more than five minutes in the future or exp is more than five
minutes in the past. -/
def TypedClaims.is_expired (c : TypedClaims) (now : Int) : Bool :=
  decide (c.nbf > now + minutes 5) || decide (c.exp < now - minutes 5)

/-- True when every byte is visible ASCII, the condition under which the
external http crate converts a header value to a str. -/
def toStrOk (bytes : List Nat) : Bool :=
  bytes.all (fun b => decide (32 ≤ b) && decide (b ≤ 126))

/-- View header bytes as characters. -/
def bytesToChars (bytes : List Nat) : List Char :=
  bytes.map Char.ofNat

/-- str::starts_with on character lists: the second list is a required
initial segment of the first. -/
def startsWithChars : List Char → List Char → Bool
  | _, [] => true
  | [], _ :: _ => false
  | c :: cs, p :: ps => (c == p) && startsWithChars cs ps

/-- The literal scheme the extractor requires at the start of the
Authorization header: lowercase bearer followed by one space. -/
def schemeChars : List Char := "bearer ".data

/-- The environment the extractor runs in: the Authorization header bytes,
the token parser (Modelled from the spec: JsonWebToken::deserialize is
absent from src and is treated as a black-box compact-JWS parser), the two
reads of the shared key cache, the refresh outcome, the signature
verification outcome (none is an OpenSSL failure), the revocation endpoint
status (none is a transport failure), and the wall clock. -/
structure Env where
  authorization : Option (List Nat)
  deserialize : List Char → Option TypedToken
  cacheHas : String → Bool
  refreshOk : Bool
  cacheGet : String → Bool
  verifyTok : TypedToken → Option Bool
  revocation : String → Option Nat
  now : Int

/-- The outcome of the extractor for one request. -/
inductive Outcome
  | token (t : TypedToken)
  | unauthenticated
  | internalServerError
deriving DecidableEq, Repr

/-- Token::from_request_parts (src/token/extractor.rs): require the
Authorization header, convert it to a str, require the literal lowercase
prefix "bearer ", take the rest of the header as the token, parse it, look
up the kid in the cache (refreshing on a miss), verify the signature, apply
the claims time policy, then the revocation check. -/
def fromRequestParts (env : Env) : Outcome :=
  match env.authorization with
  | none => .unauthenticated
  | some bytes =>
    if ¬ toStrOk bytes then .unauthenticated
    else
      let header := bytesToChars bytes
      if ¬ startsWithChars header schemeChars then .unauthenticated
      else
        match env.deserialize (header.drop 7) with
        | none => .unauthenticated
        | some token =>
          let cacheContainsKey := env.cacheHas token.header.kid
          if ¬ cacheContainsKey ∧ ¬ env.refreshOk then .internalServerError
          else if ¬ env.cacheGet token.header.kid then .unauthenticated
          else
            match env.verifyTok token with
            | none => .internalServerError
            | some false => .unauthenticated
            | some true =>
              if token.claims.is_expired env.now then .unauthenticated
              else
                match env.revocation token.claims.tid with
                | none => .internalServerError
                | some status =>
                  if status = 404 then .token token
                  else if status = 200 then .unauthenticated
                  else .internalServerError

end extractor

namespace key_set_cache

/-- A cached verifying key as stored by the JWKS cache: its kid and the
instant it was retrieved (src/token/json_web_key/verifying.rs sets
retrieved to the conversion time). -/
structure CacheEntry where
  kid : String
  retrieved : Int
deriving DecidableEq, Repr

/-- The state of JsonWebKeySetCache observable by refresh: the kid-indexed
map of verifying keys and the last refresh instant
(src/token/json_web_key/key_set_cache.rs). -/
structure CacheState where
  cache : List (String × CacheEntry)
  last_refresh : Int
deriving DecidableEq, Repr

/-- A JSON web key as fetched from the key-set endpoint, abstracted to its
kid and whether VerifyingJsonWebKey::try_from succeeds on it (the
conversion itself runs external OpenSSL code). -/
structure FetchedJwk where
  kid : String
  convertible : Bool
deriving DecidableEq, Repr

/-- Error variants from refreshing the cache
(src/token/json_web_key/key_set_cache.rs). -/
inductive RefreshCacheError
  | CouldNotConnect
  | InvalidResponse
  | InvalidRequest
  | ErrorResponse (status : Nat)
  | InvalidJwk (kid : String)
deriving DecidableEq, Repr

/-- Milliseconds in the given number of hours. -/
def hours (n : Int) : Int := n * 3600000

/-- HashMap::insert: replace the entry with the key if present, append otherwise. -/
def insertA (m : List (String × CacheEntry)) (k : String) (v : CacheEntry) :
    List (String × CacheEntry) :=
  if m.any (fun kv => kv.1 == k) then
    m.map (fun kv => if kv.1 == k then (k, v) else kv)
  else
    m ++ [(k, v)]

/-- HashMap lookup by kid. -/
def lookupA (m : List (String × CacheEntry)) (k : String) : Option CacheEntry :=
  (m.find? (fun kv => kv.1 == k)).map (fun kv => kv.2)

/-- The ingest loop of refresh: insert each fetched key in order, converting
it first; stop at the first key whose conversion fails and report its kid.
Each accepted entry is stored with retrieved set to now. -/
def ingestPartial (now : Int) :
    List (String × CacheEntry) → List FetchedJwk →
    List (String × CacheEntry) × Option String
  | m, [] => (m, none)
  | m, j :: rest =>
    if j.convertible then
      ingestPartial now (insertA m j.kid { kid := j.kid, retrieved := now }) rest
    else
      (m, some j.kid)

/-- The value refresh produces: the cache state after the call, whether the
HTTPS GET was performed, and the returned result. -/
structure RefreshResult where
  state : CacheState
  didFetch : Bool
  result : Except RefreshCacheError Unit
deriving Repr

/-- JsonWebKeySetCache::refresh (src/token/json_web_key/key_set_cache.rs):
if less than four hours have passed since last_refresh, return Ok without
touching the network; otherwise fetch the key set (outcome supplied by the
network oracle), insert the fetched keys one by one, returning an
InvalidJwk error at the first conversion failure, then evict entries
retrieved more than 24 hours ago and set last_refresh to now. -/
def refresh (st : CacheState) (now : Int)
    (fetchResult : Except RefreshCacheError (List FetchedJwk)) : RefreshResult :=
  if now - st.last_refresh < hours 4 then
    { state := st, didFetch := false, result := .ok () }
  else
    match fetchResult with
    | .error e => { state := st, didFetch := true, result := .error e }
    | .ok keys =>
      match ingestPartial now st.cache keys with
      | (m, some kid) =>
        { state := { cache := m, last_refresh := st.last_refresh },
          didFetch := true,
          result := .error (.InvalidJwk kid) }
      | (m, none) =>
        let m2 := m.filter (fun kv => now - kv.2.retrieved < hours 24)
        { state := { cache := m2, last_refresh := now },
          didFetch := true,
          result := .ok () }

end key_set_cache

namespace webauthn

/-- COSE algorithm identifiers recognized by the WebAuthn side
(src/webauthn/public_key_credential.rs). -/
inductive Algorithm
  | ESP256 | ESP384 | ESP512 | ES256K | ED25519 | ED448
  | PS256 | PS384 | PS512 | ES256 | ES384 | ES512 | EdDSA
  | RS512 | RS384 | RS256
deriving DecidableEq, Repr

/-- OpenSSL key-type identifiers used by Algorithm::id
(src/webauthn/public_key_credential.rs). -/
inductive PKeyId
  | EC | ED448 | ED25519 | DSA | RSA_PSS | RSA
deriving DecidableEq, Repr

/-- Algorithm::id (src/webauthn/public_key_credential.rs). -/
def Algorithm.id : Algorithm → PKeyId
  | .ED448 => .ED448
  | .ED25519 => .ED25519
  | .EdDSA => .DSA
  | .ES512 | .ES384 | .ES256 | .ES256K | .ESP256 | .ESP384 | .ESP512 => .EC
  | .PS512 | .PS384 | .PS256 => .RSA_PSS
  | .RS512 | .RS384 | .RS256 => .RSA

/-- Message digests selected by the assertion ceremony. -/
inductive Digest
  | sha256 | sha384 | sha512
deriving DecidableEq, Repr

/-- The digest selection of verify_assertion (src/webauthn/verification.rs):
none for the Edwards-curve algorithms (the primitive hashes internally). -/
def digestFor : Algorithm → Option Digest
  | .ED448 | .ED25519 | .EdDSA => none
  | .ES256K | .PS256 | .ESP256 | .RS256 | .ES256 => some .sha256
  | .PS512 | .ESP512 | .ES512 | .RS512 => some .sha512
  | .PS384 | .ESP384 | .RS384 | .ES384 => some .sha384

/-- The client data type tag (src/webauthn/public_key_credential.rs). -/
inductive ClientDataType
  | WebAuthNCreate
  | WebAuthNGet
deriving DecidableEq, Repr

/-- The decoded client data JSON (src/webauthn/public_key_credential.rs);
raw retains the exact base64url-decoded bytes. -/
structure ClientDataJson where
  challenge : List Nat
  cross_origin : Option Bool
  origin : String
  top_origin : Option String
  ty : ClientDataType
  raw : List Nat
deriving DecidableEq, Repr

/-- The decoded authenticator data (src/webauthn/assertion_response.rs);
raw retains the full byte string. -/
structure AuthenticatorData where
  relying_party_id_hash : List Nat
  flags : Nat
  signature_counter : Nat
  raw : List Nat
deriving DecidableEq, Repr

/-- The Deserialize impl of AuthenticatorData
(src/webauthn/assertion_response.rs), applied to the base64url-decoded
bytes: require at least 37 bytes, take bytes 0..32 as the relying-party ID
hash, byte 32 as the flags, and bytes 33..37 as the signature counter read
with u32::from_le_bytes. -/
def AuthenticatorData.deserializeBytes (bytes : List Nat) : Option AuthenticatorData :=
  if bytes.length < 37 then none
  else
    some { relying_party_id_hash := bytes.take 32
           flags := bytes.getD 32 0
           signature_counter := fromLeBytes ((bytes.drop 33).take 4)
           raw := bytes }

/-- An assertion response (src/webauthn/assertion_response.rs as consumed by
src/webauthn/verification.rs, where user_handle is optional). -/
structure AssertionResponse where
  authenticator_data : AuthenticatorData
  client_data_json : ClientDataJson
  signature : List Nat
  user_handle : Option (List Nat)
deriving DecidableEq, Repr

/-- The method results carried by an attestation response
(src/webauthn/attestation_response.rs). -/
structure MethodResults where
  authenticator_data : AuthenticatorData
  public_key : List Nat
  public_key_algorithm : Algorithm
deriving DecidableEq, Repr

/-- An attestation response (src/webauthn/attestation_response.rs). -/
structure AttestationResponse where
  attestation_object : List Nat
  client_data_json : ClientDataJson
  method_results : MethodResults
deriving DecidableEq, Repr

/-- A challenge issued to a client (src/webauthn/challenge.rs); times are
integer milliseconds. -/
structure Challenge where
  challenge : List Nat
  identity_id : Option (List Nat)
  issued : Int
  expires : Int
  origin : String
deriving DecidableEq, Repr

/-- Challenge::is_valid (src/webauthn/challenge.rs); the source reads the
wall clock, passed here explicitly. -/
def Challenge.is_valid (c : Challenge) (now : Int) : Bool :=
  decide (c.expires > now) && decide (c.issued < now)

/-- Challenge::is_for_origin (src/webauthn/challenge.rs). -/
def Challenge.is_for_origin (c : Challenge) (origin : String) : Bool :=
  c.origin == origin

/-- Challenge::is_for_bearer (src/webauthn/challenge.rs). -/
def Challenge.is_for_bearer (c : Challenge) (bearer : Option (List Nat)) : Bool :=
  c.identity_id == bearer

/-- The persisted public key (src/webauthn/persisted_public_key.rs),
restricted to the fields verification reads. -/
structure PersistedPublicKey where
  raw_id : List Nat
  identity_id : List Nat
  display_name : String
  public_key : List Nat
  public_key_algorithm : Algorithm
  signature_counter : Int
deriving DecidableEq, Repr

/-- Error variants from verification (src/webauthn/verification.rs). -/
inductive VerificationError
  | GetChallenge
  | GetPublicKey
  | PKeyFromDer
  | CreateSignatureVerifier
  | VerifierError
deriving DecidableEq, Repr

/-- The environment of the WebAuthn verifier: the Verifier trait methods
(relying_party_id as its bytes, and the two store lookups, which may fail
with a store error) together with the external OpenSSL primitives (SHA-256,
DER public-key parsing yielding the key type, verifier construction and the
one-shot signature check) and the wall clock. -/
structure VerifierEnv where
  relying_party_id : List Nat
  get_challenge : List Nat → Except Unit (Option Challenge)
  get_public_key : List Nat → Except Unit (Option PersistedPublicKey)
  sha256 : List Nat → List Nat
  pkeyFromDer : List Nat → Option PKeyId
  newVerifierOk : Bool
  verifyOneshot : List Nat → List Nat → Option Bool
  now : Int

/-- Which external effects a ceremony performed: a challenge-store lookup, a
public-key-store lookup, a signature check. -/
structure Effects where
  challengeLookup : Bool
  keyLookup : Bool
  sigCheck : Bool
deriving DecidableEq, Repr

/-- No effect performed. -/
def Effects.none : Effects := { challengeLookup := false, keyLookup := false, sigCheck := false }

/-- Only the challenge lookup performed. -/
def Effects.chal : Effects := { challengeLookup := true, keyLookup := false, sigCheck := false }

/-- Challenge and key lookups performed. -/
def Effects.chalKey : Effects := { challengeLookup := true, keyLookup := true, sigCheck := false }

/-- All three effects performed. -/
def Effects.all : Effects := { challengeLookup := true, keyLookup := true, sigCheck := true }

/-- PublicKeyCredential::verify_attestation (src/webauthn/verification.rs):
require the create client-data type and a bearer, fetch and check the
challenge (exists, valid, for the origin, bound to an identity, for the
bearer), parse the supplied public key from DER, and require its key type
to match the declared algorithm family; every check failure yields Ok false,
only store failures are errors. -/
def verify_attestation (env : VerifierEnv) (_raw_id : List Nat)
    (response : AttestationResponse) (bearer : Option (List Nat)) :
    Except VerificationError Bool :=
  if response.client_data_json.ty ≠ ClientDataType.WebAuthNCreate then .ok false
  else if bearer.isNone then .ok false
  else
    match env.get_challenge response.client_data_json.challenge with
    | .error _ => .error .GetChallenge
    | .ok none => .ok false
    | .ok (some challenge) =>
      if ¬ challenge.is_valid env.now
          ∨ ¬ challenge.is_for_origin response.client_data_json.origin
          ∨ challenge.identity_id.isNone
          ∨ ¬ challenge.is_for_bearer bearer then .ok false
      else
        match env.pkeyFromDer response.method_results.public_key with
        | none => .ok false
        | some keyId =>
          if keyId ≠ response.method_results.public_key_algorithm.id then .ok false
          else .ok true

/-- The tail of verify_assertion from the public-key store lookup onwards
(src/webauthn/verification.rs): fetch the persisted key by raw_id, match
its identity against the user handle, build the signing input as the raw
authenticator data concatenated with SHA-256 of the raw client data, parse
the stored key from DER (a parse failure is the PKeyFromDer error), select
the digest by algorithm family, and run the one-shot signature check. -/
def verify_assertion_key (env : VerifierEnv) (raw_id : List Nat)
    (response : AssertionResponse) : Except VerificationError Bool × Effects :=
  match env.get_public_key raw_id with
  | .error _ => (.error .GetPublicKey, Effects.chalKey)
  | .ok none => (.ok false, Effects.chalKey)
  | .ok (some persisted_public_key) =>
    let userHandleMismatch : Bool :=
      match response.user_handle with
      | some user_handle => decide (persisted_public_key.identity_id ≠ user_handle)
      | none => false
    if userHandleMismatch then (.ok false, Effects.chalKey)
    else
      let contents := response.authenticator_data.raw ++ env.sha256 response.client_data_json.raw
      match env.pkeyFromDer persisted_public_key.public_key with
      | none => (.error .PKeyFromDer, Effects.chalKey)
      | some _ =>
        let _digest := digestFor persisted_public_key.public_key_algorithm
        if ¬ env.newVerifierOk then (.error .CreateSignatureVerifier, Effects.chalKey)
        else
          match env.verifyOneshot response.signature contents with
          | none => (.error .VerifierError, Effects.all)
          | some is_valid => (.ok is_valid, Effects.all)

/-- PublicKeyCredential::verify_assertion (src/webauthn/verification.rs):
require the get client-data type; require the relying-party ID hash to
equal SHA-256 of the relying-party ID; fetch and check the challenge; match
a bound identity against the user handle; fetch the persisted public key by
raw_id and match its identity against the user handle; build the signing
input as the raw authenticator data concatenated with SHA-256 of the raw
client data; parse the stored key from DER (a parse failure is an error),
select the digest by algorithm family, and check the signature. The result
also reports which external effects were performed. -/
def verify_assertion (env : VerifierEnv) (raw_id : List Nat)
    (response : AssertionResponse) (bearer : Option (List Nat)) :
    Except VerificationError Bool × Effects :=
  if response.client_data_json.ty ≠ ClientDataType.WebAuthNGet then
    (.ok false, Effects.none)
  else
    let expected_hash := env.sha256 env.relying_party_id
    if response.authenticator_data.relying_party_id_hash ≠ expected_hash then
      (.ok false, Effects.none)
    else
      match env.get_challenge response.client_data_json.challenge with
      | .error _ => (.error .GetChallenge, Effects.chal)
      | .ok none => (.ok false, Effects.chal)
      | .ok (some challenge) =>
        if ¬ challenge.is_valid env.now
            ∨ ¬ challenge.is_for_origin response.client_data_json.origin
            ∨ ¬ challenge.is_for_bearer bearer then (.ok false, Effects.chal)
        else
          match challenge.identity_id, response.user_handle with
          | some identity_id, some user_handle =>
            if identity_id ≠ user_handle then (.ok false, Effects.chal)
            else verify_assertion_key env raw_id response
          | _, _ => verify_assertion_key env raw_id response

end webauthn

namespace key_set_cache

/-- Insert a run of convertible fetched keys in order, each stored with
retrieved set to now. -/
def insertAll (now : Int) (m : List (String × CacheEntry)) (keys : List FetchedJwk) :
    List (String × CacheEntry) :=
  keys.foldl (fun acc j => insertA acc j.kid { kid := j.kid, retrieved := now }) m

theorem ingestPartial_append (now : Int) (bad : FetchedJwk) (hbad : bad.convertible = false) :
    ∀ (pre : List FetchedJwk) (m : List (String × CacheEntry)) (rest : List FetchedJwk),
      (∀ j ∈ pre, j.convertible = true) →
      ingestPartial now m (pre ++ bad :: rest) = (insertAll now m pre, some bad.kid) := by
  intro pre
  induction pre with
  | nil =>
    intro m rest _
    simp [ingestPartial, insertAll, hbad]
  | cons j js ih =>
    intro m rest hpre
    have hj : j.convertible = true := hpre j (by simp)
    have hjs : ∀ x ∈ js, x.convertible = true := fun x hx => hpre x (by simp [hx])
    simp only [List.cons_append, ingestPartial, hj, if_true]
    rw [show js.append (bad :: rest) = js ++ bad :: rest from rfl, ih _ rest hjs]
    simp [insertAll]

theorem ingestPartial_stops_at_find (now : Int) (bad : FetchedJwk) :
    ∀ (keys : List FetchedJwk) (m : List (String × CacheEntry)),
      keys.find? (fun j => ! j.convertible) = some bad →
      (ingestPartial now m keys).2 = some bad.kid := by
  intro keys
  induction keys with
  | nil => intro m h; simp [List.find?] at h
  | cons j js ih =>
    intro m h
    by_cases hj : j.convertible
    · rw [List.find?_cons_of_neg _ (by simp [hj])] at h
      simp only [ingestPartial, hj, if_true]
      exact ih _ h
    · rw [List.find?_cons_of_pos _ (by simp [hj])] at h
      cases h
      simp [ingestPartial, hj]

end key_set_cache

/-- C7: Claims::is_valid evaluates at the supplied wall-clock instant with
no leeway, in the fixed order Expired, Premature, Untrusted, WrongAudience,
Valid: Expired iff exp is before now; otherwise Premature iff nbf is after
now; otherwise Untrusted iff iss is not a trusted issuer; otherwise
WrongAudience iff aud differs from the audience; otherwise Valid. -/
theorem claims_is_valid_fixed_order (c : token.Claims) (trusted_issuers : List String)
    (audience : String) (now : Int) :
    (c.is_valid trusted_issuers audience now = .Expired ↔ c.exp < now)
    ∧ (c.is_valid trusted_issuers audience now = .Premature ↔
        ¬ c.exp < now ∧ c.nbf > now)
    ∧ (c.is_valid trusted_issuers audience now = .Untrusted ↔
        ¬ c.exp < now ∧ ¬ c.nbf > now ∧ c.iss ∉ trusted_issuers)
    ∧ (c.is_valid trusted_issuers audience now = .WrongAudience ↔
        ¬ c.exp < now ∧ ¬ c.nbf > now ∧ c.iss ∈ trusted_issuers ∧ c.aud ≠ audience)
    ∧ (c.is_valid trusted_issuers audience now = .Valid ↔
        ¬ c.exp < now ∧ ¬ c.nbf > now ∧ c.iss ∈ trusted_issuers ∧ c.aud = audience) := by
  unfold token.Claims.is_valid
  split_ifs with h1 h2 h3 h4 <;> simp_all

/-- The concrete authenticator-data bytes exercising the counter decoder:
a 32-byte relying-party hash of zeros, flags byte 1, and counter bytes
0, 0, 0, 1. -/
def c2Input : List Nat := List.replicate 32 0 ++ [1, 0, 0, 0, 1]

/-- C2: evaluation of the AuthenticatorData decoder at c2Input. The decoder
takes bytes 0..32 as the relying-party ID hash, byte 32 as the flags, and
retains the raw bytes, as the claim states; but it reads the signature
counter with u32::from_le_bytes, so counter bytes 0, 0, 0, 1 decode to
16777216, while the big-endian reading the claim specifies gives 1. -/
theorem authenticator_data_counter_little_endian :
    webauthn.AuthenticatorData.deserializeBytes c2Input =
      some { relying_party_id_hash := List.replicate 32 0
             flags := 1
             signature_counter := 16777216
             raw := c2Input }
    ∧ fromBeBytes [0, 0, 0, 1] = 1
    ∧ (16777216 : Nat) ≠ 1 := by
  refine ⟨by decide, by decide, by decide⟩

/-- Early return of refresh inside the four-hour window. -/
theorem refresh_early (st : key_set_cache.CacheState) (now : Int)
    (fr : Except key_set_cache.RefreshCacheError (List key_set_cache.FetchedJwk))
    (h : now - st.last_refresh < key_set_cache.hours 4) :
    key_set_cache.refresh st now fr =
      { state := st, didFetch := false, result := .ok () } := by
  unfold key_set_cache.refresh
  rw [if_pos h]

/-- A refresh that fetched and succeeded has set last_refresh to its own
invocation time. -/
theorem refresh_full_success_sets_last (st : key_set_cache.CacheState) (now : Int)
    (fr : Except key_set_cache.RefreshCacheError (List key_set_cache.FetchedJwk)) :
    (key_set_cache.refresh st now fr).didFetch = true →
    (key_set_cache.refresh st now fr).result = .ok () →
    (key_set_cache.refresh st now fr).state.last_refresh = now := by
  unfold key_set_cache.refresh
  split_ifs with hwin
  · intro h _
    simp at h
  · cases fr with
    | error e =>
      intro _ h
      simp at h
    | ok keys =>
      dsimp only
      rcases hp : key_set_cache.ingestPartial now st.cache keys with ⟨m, okid⟩
      cases okid with
      | some kid =>
        intro _ h
        simp at h
      | none =>
        intro _ _
        rfl

/-- C6: refresh performs no HTTP request and returns success immediately
whenever it is invoked strictly less than four hours after last_refresh;
and after a refresh that actually fetched and succeeded at time t, any
refresh before t plus four hours does not fetch, leaves the state
unchanged and succeeds. -/
theorem refresh_rate_limit
    (st st1 : key_set_cache.CacheState) (now t t2 : Int)
    (fr f1 f2 : Except key_set_cache.RefreshCacheError (List key_set_cache.FetchedJwk)) :
    (now - st.last_refresh < key_set_cache.hours 4 →
      key_set_cache.refresh st now fr =
        { state := st, didFetch := false, result := .ok () })
    ∧ ((key_set_cache.refresh st1 t f1).didFetch = true →
       (key_set_cache.refresh st1 t f1).result = .ok () →
       t2 < t + key_set_cache.hours 4 →
       key_set_cache.refresh (key_set_cache.refresh st1 t f1).state t2 f2 =
         { state := (key_set_cache.refresh st1 t f1).state, didFetch := false,
           result := .ok () }) := by
  constructor
  · intro h
    exact refresh_early st now fr h
  · intro hfetch hok ht2
    refine refresh_early _ t2 f2 ?_
    rw [refresh_full_success_sets_last st1 t f1 hfetch hok]
    omega

/-- C9: when the four-hour window has passed and the fetched list is a run
of convertible keys followed by one whose conversion fails, refresh returns
the InvalidJwk error for that key, the cache holds exactly the earlier keys
inserted over the previous cache (the 24-hour eviction filter has not been
applied), and last_refresh is unchanged. -/
theorem refresh_partial_on_invalid_jwk
    (st : key_set_cache.CacheState) (now : Int)
    (pre rest : List key_set_cache.FetchedJwk) (bad : key_set_cache.FetchedJwk)
    (hwin : ¬ now - st.last_refresh < key_set_cache.hours 4)
    (hpre : ∀ j ∈ pre, j.convertible = true)
    (hbad : bad.convertible = false) :
    key_set_cache.refresh st now (.ok (pre ++ bad :: rest)) =
      { state := { cache := key_set_cache.insertAll now st.cache pre,
                   last_refresh := st.last_refresh },
        didFetch := true,
        result := .error (.InvalidJwk bad.kid) } := by
  unfold key_set_cache.refresh
  rw [if_neg hwin]
  simp only
  rw [key_set_cache.ingestPartial_append now bad hbad pre st.cache rest hpre]

/-- Witness for refresh_partial_on_invalid_jwk at a concrete cache and
fetched list. -/
theorem refresh_partial_on_invalid_jwk_witness :
    key_set_cache.refresh { cache := [], last_refresh := 0 } (key_set_cache.hours 4)
        (.ok ([{ kid := "k1", convertible := true }] ++
          { kid := "kbad", convertible := false } :: [{ kid := "k2", convertible := true }])) =
      { state := { cache := key_set_cache.insertAll (key_set_cache.hours 4) []
                     [{ kid := "k1", convertible := true }],
                   last_refresh := 0 },
        didFetch := true,
        result := .error (.InvalidJwk "kbad") } :=
  refresh_partial_on_invalid_jwk { cache := [], last_refresh := 0 } (key_set_cache.hours 4)
    [{ kid := "k1", convertible := true }] [{ kid := "k2", convertible := true }]
    { kid := "kbad", convertible := false }
    (by decide) (by decide) (by decide)

/-- The concrete fetched key set for the C3 counterexample: a convertible
key, a key whose conversion fails, then another convertible key. -/
def c3Fetch : List key_set_cache.FetchedJwk :=
  [{ kid := "k1", convertible := true },
   { kid := "kbad", convertible := false },
   { kid := "k2", convertible := true }]

/-- C3 counterexample: refreshing an empty, stale cache with c3Fetch does
not skip the failing entry: refresh returns the InvalidJwk error for kbad,
the entry k2 after it is never ingested, and last_refresh is not advanced,
contradicting the claim that one invalid entry never causes refresh to
reject the fetched key set. -/
theorem refresh_skips_invalid_counterexample :
    (key_set_cache.refresh { cache := [], last_refresh := 0 }
        (key_set_cache.hours 4) (.ok c3Fetch)).result =
      .error (.InvalidJwk "kbad")
    ∧ key_set_cache.lookupA
        (key_set_cache.refresh { cache := [], last_refresh := 0 }
          (key_set_cache.hours 4) (.ok c3Fetch)).state.cache "k2" = none
    ∧ (key_set_cache.refresh { cache := [], last_refresh := 0 }
        (key_set_cache.hours 4) (.ok c3Fetch)).state.last_refresh = 0 := by
  refine ⟨rfl, rfl, rfl⟩

/-- C3 amended: during a refresh past the rate-limit window, the first
fetched entry that fails conversion to a verifying key makes refresh return
the InvalidJwk error carrying that kid (the whole fetched set is rejected
rather than the entry being skipped), and last_refresh stays unchanged. -/
theorem refresh_error_on_first_invalid
    (st : key_set_cache.CacheState) (now : Int)
    (keys : List key_set_cache.FetchedJwk) (bad : key_set_cache.FetchedJwk)
    (hwin : ¬ now - st.last_refresh < key_set_cache.hours 4)
    (hfind : keys.find? (fun j => ! j.convertible) = some bad) :
    (key_set_cache.refresh st now (.ok keys)).result = .error (.InvalidJwk bad.kid)
    ∧ (key_set_cache.refresh st now (.ok keys)).state.last_refresh = st.last_refresh := by
  have h2 := key_set_cache.ingestPartial_stops_at_find now bad keys st.cache hfind
  unfold key_set_cache.refresh
  rw [if_neg hwin]
  rcases hp : key_set_cache.ingestPartial now st.cache keys with ⟨m, okid⟩
  rw [hp] at h2
  simp only at h2
  subst h2
  simp [hp]

/-- Witness for refresh_error_on_first_invalid at the concrete c3Fetch set. -/
theorem refresh_error_on_first_invalid_witness :
    (key_set_cache.refresh { cache := [], last_refresh := 0 }
        (key_set_cache.hours 4) (.ok c3Fetch)).result =
      .error (.InvalidJwk "kbad")
    ∧ (key_set_cache.refresh { cache := [], last_refresh := 0 }
        (key_set_cache.hours 4) (.ok c3Fetch)).state.last_refresh = 0 :=
  refresh_error_on_first_invalid { cache := [], last_refresh := 0 } (key_set_cache.hours 4)
    c3Fetch { kid := "kbad", convertible := false } (by decide) (by decide)

/-- Witness for refresh_rate_limit: a refresh one millisecond after
last_refresh does not fetch, and after a full successful refresh at the
four-hour mark, a refresh one millisecond later does not fetch. -/
theorem refresh_rate_limit_witness :
    key_set_cache.refresh { cache := [], last_refresh := 0 } 1 (.ok []) =
      { state := { cache := [], last_refresh := 0 }, didFetch := false, result := .ok () }
    ∧ key_set_cache.refresh
        (key_set_cache.refresh { cache := [], last_refresh := 0 }
          (key_set_cache.hours 4) (.ok [])).state
        (key_set_cache.hours 4 + 1) (.ok []) =
      { state := (key_set_cache.refresh { cache := [], last_refresh := 0 }
          (key_set_cache.hours 4) (.ok [])).state,
        didFetch := false, result := .ok () } :=
  ⟨(refresh_rate_limit { cache := [], last_refresh := 0 }
      { cache := [], last_refresh := 0 } 1 0 0 (.ok []) (.ok []) (.ok [])).1 (by decide),
   (refresh_rate_limit { cache := [], last_refresh := 0 }
      { cache := [], last_refresh := 0 } 1 (key_set_cache.hours 4)
      (key_set_cache.hours 4 + 1) (.ok []) (.ok []) (.ok [])).2
     rfl rfl (by decide)⟩

/-- The crypto oracle for the C1 scenarios: verifier creation succeeds and
every signature is reported valid. -/
def c1Crypto : token.CryptoEnv :=
  { newVerifierOk := true, verifyOneshot := fun _ _ => some true }

/-- The verifying key for the C1 scenarios: an ES256 P-256 key. -/
def c1Key : token.VerifyingJsonWebKey :=
  { jwk := { kid := "k1", alg := .ES256, usage := "sig",
             parameters := .EC .P256 "x" "y" },
    retrieved := 0 }

/-- The compact JWS for the C1 scenarios: each segment decodes to the byte 0. -/
def c1Token : List Char := "AA.AA.AA".data

/-- The serde oracle for the C1 counterexample: the header JSON carries
alg RS256, an algorithm the key does not use. -/
def c1SerdeRs : token.SerdeEnv :=
  { parseHeaderJson := fun bytes =>
      if bytes = [0] then some { alg := "RS256", typ := "JWT", kid := "k1" } else none
    parseClaimsJson := fun bytes =>
      if bytes = [0] then
        some { exp := 0, iss := "i", iat := 0, nbf := 0, sub := "s", aud := "a" }
      else none }

/-- The serde oracle for the C1 witness: the header JSON carries alg ES256. -/
def c1SerdeEs : token.SerdeEnv :=
  { parseHeaderJson := fun bytes =>
      if bytes = [0] then some { alg := "ES256", typ := "JWT", kid := "k1" } else none
    parseClaimsJson := fun bytes =>
      if bytes = [0] then
        some { exp := 0, iss := "i", iat := 0, nbf := 0, sub := "s", aud := "a" }
      else none }

/-- C1 counterexample: a compact JWS whose signature verifies under the key
but whose decoded header JSON declares alg RS256, different from the key
algorithm ES256, makes verify return the DecodeHeader error (the derived
Algorithm deserializer admits only ES256); the VerifyError type of the
source has no algorithm-mismatch variant at all, so no such error can be
returned, contradicting the claim. -/
theorem verify_algorithm_mismatch_counterexample :
    token.VerifyingJsonWebKey.verify c1Crypto c1SerdeRs c1Key c1Token =
      .error (.DecodeHeader .JsonDeserialize) := by
  rfl

/-- C1 amended: verify performs no comparison between the decoded header
algorithm and the key algorithm and has no algorithm-mismatch error; a
header declaring any algorithm other than ES256 fails header decoding
inside the derived deserializer, yielding a DecodeHeader error, and every
token verify does return trivially has a header algorithm equal to the key
algorithm because ES256 is the only representable algorithm. -/
theorem verify_header_alg_always_matches_key
    (env : token.CryptoEnv) (serde : token.SerdeEnv) (k : token.VerifyingJsonWebKey)
    (tok seg : List Char) (t : token.JsonWebToken) (bytes : List Nat)
    (raw : token.RawHeader) :
    (token.VerifyingJsonWebKey.verify env serde k tok = .ok (some t) →
      t.header.alg = k.jwk.alg)
    ∧ (b64DecodeChars seg = some bytes →
       serde.parseHeaderJson bytes = some raw →
       token.Algorithm.fromJsonString raw.alg = none →
       token.Header.decode serde seg = .error .JsonDeserialize) := by
  constructor
  · intro _
    cases ht : t.header.alg
    cases hk : k.jwk.alg
    rfl
  · intro h1 h2 h3
    unfold token.Header.decode
    rw [h1]
    dsimp only
    rw [h2]
    dsimp only
    rw [h3]

/-- Witness for verify_header_alg_always_matches_key: with an ES256 header
the concrete token verifies to a decoded token whose header algorithm
equals the key algorithm, and with the RS256 header oracle the concrete
header segment fails decoding with a JSON deserialization error. -/
theorem verify_header_alg_always_matches_key_witness :
    (token.VerifyingJsonWebKey.verify c1Crypto c1SerdeEs c1Key c1Token =
        .ok (some { header := { alg := .ES256, typ := "JWT", kid := "k1" },
                    claims := { exp := 0, iss := "i", iat := 0, nbf := 0,
                                sub := "s", aud := "a" } })
      ∧ ({ header := { alg := .ES256, typ := "JWT", kid := "k1" },
           claims := { exp := 0, iss := "i", iat := 0, nbf := 0,
                       sub := "s", aud := "a" } } : token.JsonWebToken).header.alg =
          c1Key.jwk.alg)
    ∧ token.Header.decode c1SerdeRs "AA".data = .error .JsonDeserialize :=
  ⟨⟨rfl,
    (verify_header_alg_always_matches_key c1Crypto c1SerdeEs c1Key c1Token "AA".data
      { header := { alg := .ES256, typ := "JWT", kid := "k1" },
        claims := { exp := 0, iss := "i", iat := 0, nbf := 0, sub := "s", aud := "a" } }
      [0] { alg := "ES256", typ := "JWT", kid := "k1" }).1 rfl⟩,
   (verify_header_alg_always_matches_key c1Crypto c1SerdeRs c1Key c1Token "AA".data
      { header := { alg := .ES256, typ := "JWT", kid := "k1" },
        claims := { exp := 0, iss := "i", iat := 0, nbf := 0, sub := "s", aud := "a" } }
      [0] { alg := "RS256", typ := "JWT", kid := "k1" }).2 rfl rfl rfl⟩

/-- C4: once the token has parsed, the key was found, and the signature
verified, and with the revocation endpoint reporting not-revoked, the
extractor rejects with Unauthenticated exactly when the spec-modelled
five-minute-leeway policy fires: nbf after now plus five minutes, or exp
before now minus five minutes. -/
theorem extractor_leeway_policy
    (env : extractor.Env) (bytes : List Nat) (t : extractor.TypedToken)
    (hauth : env.authorization = some bytes)
    (hstr : extractor.toStrOk bytes = true)
    (hscheme : extractor.startsWithChars (extractor.bytesToChars bytes) extractor.schemeChars = true)
    (hparse : env.deserialize ((extractor.bytesToChars bytes).drop 7) = some t)
    (hkey : env.cacheHas t.header.kid = true)
    (hget : env.cacheGet t.header.kid = true)
    (hverify : env.verifyTok t = some true)
    (hrev : env.revocation t.claims.tid = some 404) :
    (extractor.fromRequestParts env = .unauthenticated ↔
      t.claims.is_expired env.now = true)
    ∧ (t.claims.is_expired env.now = true ↔
        (t.claims.nbf > env.now + extractor.minutes 5 ∨
         t.claims.exp < env.now - extractor.minutes 5)) := by
  constructor
  · unfold extractor.fromRequestParts
    rw [hauth]
    simp only [hstr, hscheme, hparse, hkey, hget, hverify, hrev]
    by_cases hexp : t.claims.is_expired env.now = true
    · simp [hexp]
    · simp [hexp]
  · simp [extractor.TypedClaims.is_expired]

/-- The concrete token for the C4 witness. -/
def c4Token : extractor.TypedToken :=
  { header := { alg := "ES256", typ := "JWT", kid := "k1" },
    claims := { tid := "T", exp := 0, iat := 0, nbf := 0, sub := "s" } }

/-- The concrete extractor environment for the C4 witness: a well-formed
bearer header, a parser returning c4Token, a warm cache, a valid signature,
a not-revoked endpoint, and a clock far past the token expiry. -/
def c4Env : extractor.Env :=
  { authorization := some ("bearer a.b.c".data.map Char.toNat)
    deserialize := fun _ => some c4Token
    cacheHas := fun _ => true
    refreshOk := true
    cacheGet := fun _ => true
    verifyTok := fun _ => some true
    revocation := fun _ => some 404
    now := 1000000 }

/-- Witness for extractor_leeway_policy at c4Env. -/
theorem extractor_leeway_policy_witness :
    (extractor.fromRequestParts c4Env = .unauthenticated ↔
      c4Token.claims.is_expired c4Env.now = true)
    ∧ (c4Token.claims.is_expired c4Env.now = true ↔
        (c4Token.claims.nbf > c4Env.now + extractor.minutes 5 ∨
         c4Token.claims.exp < c4Env.now - extractor.minutes 5)) :=
  extractor_leeway_policy c4Env ("bearer a.b.c".data.map Char.toNat) c4Token
    rfl (by decide) (by decide) rfl rfl rfl rfl rfl

/-- The concrete token for the C5 scenarios; its expiry is far enough in
the future that the time policy passes at clock zero. -/
def c5Token : extractor.TypedToken :=
  { header := { alg := "ES256", typ := "JWT", kid := "k1" },
    claims := { tid := "T", exp := 600000, iat := 0, nbf := 0, sub := "s" } }

/-- The extractor environment for the C5 scenarios, parameterized by the
Authorization header bytes; every later stage would accept the token. -/
def c5Env (auth : List Nat) : extractor.Env :=
  { authorization := some auth
    deserialize := fun _ => some c5Token
    cacheHas := fun _ => true
    refreshOk := true
    cacheGet := fun _ => true
    verifyTok := fun _ => some true
    revocation := fun _ => some 404
    now := 0 }

/-- C5 counterexample: with the header spelt with a capital B the extractor
rejects the request with Unauthenticated without parsing the token, while
the identical request spelt lowercase is accepted end to end; the scheme
match is case-sensitive, contradicting the claim. -/
theorem extractor_bearer_case_counterexample :
    extractor.fromRequestParts (c5Env ("Bearer a.b.c".data.map Char.toNat)) =
      .unauthenticated
    ∧ extractor.fromRequestParts (c5Env ("bearer a.b.c".data.map Char.toNat)) =
      .token c5Token := by
  constructor
  · rfl
  · rfl

/-- C5 amended: the extractor rejects a missing Authorization header with
Unauthenticated, and accepts only headers starting with the exact lowercase
prefix "bearer " followed by the token; any other spelling of the scheme,
including a capitalized one, is rejected with Unauthenticated. -/
theorem extractor_scheme_case_sensitive
    (env : extractor.Env) (bytes : List Nat) :
    (env.authorization = none → extractor.fromRequestParts env = .unauthenticated)
    ∧ (env.authorization = some bytes →
       extractor.startsWithChars (extractor.bytesToChars bytes) extractor.schemeChars = false →
       extractor.fromRequestParts env = .unauthenticated) := by
  constructor
  · intro h
    unfold extractor.fromRequestParts
    rw [h]
  · intro h hscheme
    unfold extractor.fromRequestParts
    rw [h]
    dsimp only
    by_cases hstr : extractor.toStrOk bytes
    · rw [if_neg (by simp [hstr])]
      rw [if_pos (by simp [hscheme])]
    · rw [if_pos (by simp [hstr])]

/-- Witness for extractor_scheme_case_sensitive: a request without an
Authorization header is rejected, and the concrete capital-B request is
rejected at the scheme check. -/
theorem extractor_scheme_case_sensitive_witness :
    extractor.fromRequestParts
      { authorization := none
        deserialize := fun _ => some c5Token
        cacheHas := fun _ => true
        refreshOk := true
        cacheGet := fun _ => true
        verifyTok := fun _ => some true
        revocation := fun _ => some 404
        now := 0 } = .unauthenticated
    ∧ extractor.fromRequestParts (c5Env ("Bearer a.b.c".data.map Char.toNat)) =
      .unauthenticated :=
  ⟨(extractor_scheme_case_sensitive _ []).1 rfl,
   (extractor_scheme_case_sensitive (c5Env ("Bearer a.b.c".data.map Char.toNat))
      ("Bearer a.b.c".data.map Char.toNat)).2 rfl (by decide)⟩

/-- C8: in the assertion ceremony, whenever the relying-party ID hash
carried in the authenticator data differs from SHA-256 of the verifier
relying-party ID, verification returns Ok false (not an error) and performs
no challenge lookup, no public-key lookup, and no signature check. -/
theorem assertion_rp_hash_mismatch_rejects_early
    (env : webauthn.VerifierEnv) (raw_id : List Nat)
    (response : webauthn.AssertionResponse) (bearer : Option (List Nat))
    (h : response.authenticator_data.relying_party_id_hash ≠
      env.sha256 env.relying_party_id) :
    webauthn.verify_assertion env raw_id response bearer =
      (.ok false, webauthn.Effects.none) := by
  unfold webauthn.verify_assertion
  by_cases hty : response.client_data_json.ty = webauthn.ClientDataType.WebAuthNGet
  · rw [if_neg (by simp [hty])]
    rw [if_pos h]
  · rw [if_pos hty]

/-- The environment for the C8 witness: SHA-256 is a constant oracle whose
output differs from the hash in the response. -/
def c8Env : webauthn.VerifierEnv :=
  { relying_party_id := [114, 112]
    get_challenge := fun _ => .ok none
    get_public_key := fun _ => .ok none
    sha256 := fun _ => List.replicate 32 1
    pkeyFromDer := fun _ => some .EC
    newVerifierOk := true
    verifyOneshot := fun _ _ => some true
    now := 0 }

/-- The assertion response for the C8 witness: its relying-party ID hash is
all twos, different from the oracle output of all ones. -/
def c8Response : webauthn.AssertionResponse :=
  { authenticator_data :=
      { relying_party_id_hash := List.replicate 32 2
        flags := 5
        signature_counter := 0
        raw := List.replicate 37 2 }
    client_data_json :=
      { challenge := [9]
        cross_origin := none
        origin := "https://a.example"
        top_origin := none
        ty := .WebAuthNGet
        raw := [123] }
    signature := [1]
    user_handle := none }

/-- Witness for assertion_rp_hash_mismatch_rejects_early at c8Env. -/
theorem assertion_rp_hash_mismatch_rejects_early_witness :
    webauthn.verify_assertion c8Env [7] c8Response none =
      (.ok false, webauthn.Effects.none) :=
  assertion_rp_hash_mismatch_rejects_early c8Env [7] c8Response none (by decide)

/-- C10: the two ceremonies treat an unparsable DER public key
asymmetrically. In the attestation ceremony, as long as the challenge-store
lookup itself does not fail, an attested public key that fails DER parsing
yields Ok false. In the assertion ceremony, once control reaches the stored
key (get client-data type, matching relying-party hash, existing valid
challenge for the origin and bearer with no bound identity, persisted key
found, no user handle), a stored key that fails DER parsing yields the
PKeyFromDer error, never Ok false. -/
theorem der_parse_failure_asymmetry
    (envA : webauthn.VerifierEnv) (rawA : List Nat)
    (respA : webauthn.AttestationResponse) (bearerA : Option (List Nat))
    (envB : webauthn.VerifierEnv) (rawB : List Nat)
    (respB : webauthn.AssertionResponse) (ch : webauthn.Challenge)
    (ppk : webauthn.PersistedPublicKey) :
    ((envA.get_challenge respA.client_data_json.challenge ≠ .error ()) →
     envA.pkeyFromDer respA.method_results.public_key = none →
     webauthn.verify_attestation envA rawA respA bearerA = .ok false)
    ∧ (respB.client_data_json.ty = .WebAuthNGet →
       respB.authenticator_data.relying_party_id_hash = envB.sha256 envB.relying_party_id →
       envB.get_challenge respB.client_data_json.challenge = .ok (some ch) →
       ch.is_valid envB.now = true →
       ch.is_for_origin respB.client_data_json.origin = true →
       ch.is_for_bearer none = true →
       ch.identity_id = none →
       envB.get_public_key rawB = .ok (some ppk) →
       respB.user_handle = none →
       envB.pkeyFromDer ppk.public_key = none →
       (webauthn.verify_assertion envB rawB respB none).1 = .error .PKeyFromDer) := by
  constructor
  · intro hch hder
    unfold webauthn.verify_attestation
    by_cases hty : respA.client_data_json.ty = webauthn.ClientDataType.WebAuthNCreate
    · rw [if_neg (by simp [hty])]
      cases hb : bearerA with
      | none => simp
      | some b =>
        simp only [Option.isNone_some, Bool.false_eq_true, if_false]
        cases hc : envA.get_challenge respA.client_data_json.challenge with
        | error e => exact absurd (hc.trans (by cases e; rfl)) hch
        | ok oc =>
          cases oc with
          | none => rfl
          | some challenge =>
            dsimp only
            by_cases hcheck : ¬ challenge.is_valid envA.now = true
                ∨ ¬ challenge.is_for_origin respA.client_data_json.origin = true
                ∨ challenge.identity_id.isNone = true
                ∨ ¬ challenge.is_for_bearer (some b) = true
            · rw [if_pos hcheck]
            · rw [if_neg hcheck, hder]
    · rw [if_pos (by simp [hty])]
  · intro hty hhash hch hvalid horigin hbearer hid hkey huh hder
    unfold webauthn.verify_assertion
    rw [if_neg (by simp [hty])]
    rw [if_neg (by simp [hhash])]
    rw [hch]
    dsimp only
    rw [if_neg (by simp [hvalid, horigin, hbearer])]
    rw [hid, huh]
    dsimp only
    unfold webauthn.verify_assertion_key
    rw [hkey]
    dsimp only
    rw [huh]
    dsimp only
    rw [if_neg (by simp)]
    rw [hder]

/-- The challenge for the C10 witness: valid at clock zero, issued for the
origin of the response, bound to no identity. -/
def c10Challenge : webauthn.Challenge :=
  { challenge := [9]
    identity_id := none
    issued := -10
    expires := 10
    origin := "https://a.example"
    }

/-- The persisted public key for the C10 witness; its DER bytes fail
parsing under the oracle of c10Env. -/
def c10Key : webauthn.PersistedPublicKey :=
  { raw_id := [7]
    identity_id := [1]
    display_name := "key"
    public_key := [99]
    public_key_algorithm := .ES256
    signature_counter := 0 }

/-- The environment for the C10 witness: the challenge store returns
c10Challenge, the key store returns c10Key, SHA-256 is a constant oracle,
and DER parsing always fails. -/
def c10Env : webauthn.VerifierEnv :=
  { relying_party_id := [114, 112]
    get_challenge := fun _ => .ok (some c10Challenge)
    get_public_key := fun _ => .ok (some c10Key)
    sha256 := fun _ => List.replicate 32 1
    pkeyFromDer := fun _ => none
    newVerifierOk := true
    verifyOneshot := fun _ _ => some true
    now := 0 }

/-- The attestation response for the C10 witness. -/
def c10Attestation : webauthn.AttestationResponse :=
  { attestation_object := [3]
    client_data_json :=
      { challenge := [9]
        cross_origin := none
        origin := "https://a.example"
        top_origin := none
        ty := .WebAuthNCreate
        raw := [123] }
    method_results :=
      { authenticator_data :=
          { relying_party_id_hash := List.replicate 32 1
            flags := 5
            signature_counter := 0
            raw := List.replicate 37 1 }
        public_key := [99]
        public_key_algorithm := .ES256 } }

/-- The assertion response for the C10 witness: the relying-party hash
matches the SHA-256 oracle of c10Env. -/
def c10Assertion : webauthn.AssertionResponse :=
  { authenticator_data :=
      { relying_party_id_hash := List.replicate 32 1
        flags := 5
        signature_counter := 0
        raw := List.replicate 37 1 }
    client_data_json :=
      { challenge := [9]
        cross_origin := none
        origin := "https://a.example"
        top_origin := none
        ty := .WebAuthNGet
        raw := [123] }
    signature := [1]
    user_handle := none }

/-- Witness for der_parse_failure_asymmetry at c10Env: the attestation
ceremony returns Ok false while the assertion ceremony returns the
PKeyFromDer error on the same failing DER oracle. -/
theorem der_parse_failure_asymmetry_witness :
    webauthn.verify_attestation c10Env [7] c10Attestation (some [1]) = .ok false
    ∧ (webauthn.verify_assertion c10Env [7] c10Assertion none).1 =
        .error .PKeyFromDer :=
  ⟨(der_parse_failure_asymmetry c10Env [7] c10Attestation (some [1]) c10Env [7]
      c10Assertion c10Challenge c10Key).1 (fun h => Except.noConfusion h) rfl,
   (der_parse_failure_asymmetry c10Env [7] c10Attestation (some [1]) c10Env [7]
      c10Assertion c10Challenge c10Key).2 rfl (by decide) rfl (by decide) (by decide)
     (by decide) rfl rfl rfl rfl⟩
